import Mathlib

/-!
Verification of the SAPIEN-tutorial repository's original Python code.

The repository consists of Jupyter notebooks driving the external SAPIEN
physics engine and the mplib motion planner.  The original code of the
repository is:

* a hand-rolled `SimplePID` controller and the `pid_forward` helper
  (robotics/1_getting_started_with_robot.ipynb);
* the drive simulation loops calling `scene.step()` (same notebook);
* the planning wrappers `move_to_pose_with_RRTConnect`,
  `move_to_pose_with_screw`, `move_to_pose`, `follow_path`,
  `open_gripper`, `close_gripper` and the `demo` scripts
  (motion-planning notebooks);
* the contact-checking accumulation (basics/5_contact.ipynb).

Python floats are modelled as exact rationals (ℚ); every numeric step of
the embedded code is the same arithmetic expression as in the source.
Calls into the external engine (`scene.step`, `robot.set_qf`, rendering,
the planner itself) have no repository-side semantics, so loops that call
them are embedded as the trace of calls they emit, with the payload data
(drive targets, qf composition, printed strings) computed exactly as in
the source.  Division by zero, which raises `ZeroDivisionError` in
Python, is modelled by `Option`: `none` is a raised exception.
-/

/-- The `SimplePID` class of robotics/1_getting_started_with_robot.ipynb.
Fields `p`, `i`, `d` are the gains set in `__init__`; `_cp`, `_ci`, `_cd`
and `_last_error` are the mutable state, all initialised to `0`. -/
structure SimplePID where
  p : ℚ
  i : ℚ
  d : ℚ
  _cp : ℚ
  _ci : ℚ
  _cd : ℚ
  _last_error : ℚ
deriving DecidableEq, Repr

/-- `SimplePID.__init__(kp, ki, kd)`: gains set from the arguments, the
four state fields set to `0`. -/
def SimplePID.init (kp ki kd : ℚ) : SimplePID :=
  { p := kp, i := ki, d := kd, _cp := 0, _ci := 0, _cd := 0, _last_error := 0 }

/-- `SimplePID.compute(self, current_error, dt)`.  The Python method
mutates `self` and returns the signal; the embedding returns the signal
together with the updated state.  The division
`(current_error - self._last_error) / dt` raises `ZeroDivisionError`
when `dt == 0`, modelled as `none`. -/
def SimplePID.compute (s : SimplePID) (current_error dt : ℚ) :
    Option (ℚ × SimplePID) :=
  if dt = 0 then none
  else
    let s2 : SimplePID :=
      { s with
        _cp := current_error
        _ci := s._ci + current_error * dt
        _cd := (current_error - s._last_error) / dt
        _last_error := current_error }
    some ((s2.p * s2._cp) + (s2.i * s2._ci) + (s2.d * s2._cd), s2)

/-- Running a `SimplePID` through a list of `(current_error, dt)` calls,
discarding the returned signals and keeping the state; `none` if any
call raises. -/
def SimplePID.run (s : SimplePID) : List (ℚ × ℚ) → Option SimplePID
  | [] => some s
  | (e, dt) :: rest =>
    match s.compute e dt with
    | none => none
    | some (_, s2) => s2.run rest

/-- The running integral `∑ error·dt` over a call history. -/
def integralOf (hist : List (ℚ × ℚ)) : ℚ :=
  (hist.map (fun c => c.1 * c.2)).sum

/-- The error of the most recent call in a history, `e0` if the history
is empty. -/
def lastErrorOf (e0 : ℚ) (hist : List (ℚ × ℚ)) : ℚ :=
  ((hist.getLast?).map Prod.fst).getD e0

/-- The fields of the dict returned by `planner.plan` / `planner.plan_screw`
that the tutorial code reads: the `status` string and the `position` /
`velocity` arrays of shape `n_step × m` (indexing is total within the
shape, as for a NumPy array). -/
structure PlanResult where
  status : String
  n_step : ℕ
  position : ℕ → ℕ → ℚ
  velocity : ℕ → ℕ → ℚ

/-- The external planner as seen by one call of a `move_to_pose*`
function: each planner entry point is called at most once there, so one
result value per entry point captures one execution. -/
structure MPlanner where
  plan_screw : PlanResult
  plan : PlanResult

/-- Planner-level trace events of the `move_to_pose*` functions. -/
inductive PEv where
  | plan_screw_call
  | plan_call
  | print_status (s : String)
  | follow_path_call
deriving DecidableEq, Repr

/-- `move_to_pose_with_RRTConnect(pose, viewer)` of the plan-a-path
notebook, as the returned value together with the trace of planner
calls, prints and the `follow_path` call. -/
def move_to_pose_with_RRTConnect (planner : MPlanner) : ℤ × List PEv :=
  let result := planner.plan
  if result.status ≠ "Success" then
    (-1, [PEv.plan_call, PEv.print_status result.status])
  else
    (0, [PEv.plan_call, PEv.follow_path_call])

/-- `move_to_pose_with_screw(pose, viewer)` of the plan-a-path notebook:
try `plan_screw`, fall back to `plan` when its status is not
`"Success"`, print and return `-1` when both fail. -/
def move_to_pose_with_screw (planner : MPlanner) : ℤ × List PEv :=
  let result := planner.plan_screw
  if result.status ≠ "Success" then
    let result2 := planner.plan
    if result2.status ≠ "Success" then
      (-1, [PEv.plan_screw_call, PEv.plan_call, PEv.print_status result2.status])
    else
      (0, [PEv.plan_screw_call, PEv.plan_call, PEv.follow_path_call])
  else
    (0, [PEv.plan_screw_call, PEv.follow_path_call])

/-- `move_to_pose(pose, with_screw, viewer)` of the plan-a-path
notebook. -/
def move_to_pose (with_screw : Bool) (planner : MPlanner) : ℤ × List PEv :=
  if with_screw then
    move_to_pose_with_screw planner
  else
    move_to_pose_with_RRTConnect planner

/-- The number of planning attempts (calls of `planner.plan_screw` or
`planner.plan`) recorded in a trace. -/
def planningCalls (tr : List PEv) : ℕ :=
  tr.count PEv.plan_screw_call + tr.count PEv.plan_call

/-- A planner whose two entry points both fail (`plan_screw` with
`"RRT Failed"`, `plan` with `"IK Failed"`). -/
def plannerBothFail : MPlanner :=
  { plan_screw := { status := "RRT Failed", n_step := 0,
                    position := fun _ _ => 0, velocity := fun _ _ => 0 }
    plan := { status := "IK Failed", n_step := 0,
              position := fun _ _ => 0, velocity := fun _ _ => 0 } }

/-- A planner whose two entry points both succeed. -/
def plannerBothSucceed : MPlanner :=
  { plan_screw := { status := "Success", n_step := 3,
                    position := fun _ _ => 0, velocity := fun _ _ => 0 }
    plan := { status := "Success", n_step := 3,
              position := fun _ _ => 0, velocity := fun _ _ => 0 } }

/-- `pid_forward(pids, target_pos, current_pos, dt)` of the robot
notebook: `errors = target_pos - current_pos` elementwise, then
`qf = [pid.compute(error, dt) for pid, error in zip(pids, errors)]`.
Returns each signal with the updated controller; `none` if any
`compute` raises. -/
def pid_forward (pids : List SimplePID) (target_pos current_pos : List ℚ)
    (dt : ℚ) : Option (List (ℚ × SimplePID)) :=
  let errors := (target_pos.zip current_pos).map (fun te => te.1 - te.2)
  (pids.zip errors).mapM (fun pe => pe.1.compute pe.2 dt)

/-- Engine-level trace events of `follow_path`, `open_gripper` and
`close_gripper`: each constructor is one call into the SAPIEN engine. -/
inductive Ev where
  | compute_passive_force
  | set_qf
  | set_drive_target (j : ℕ) (v : ℚ)
  | set_drive_velocity_target (j : ℕ) (v : ℚ)
  | scene_step
  | update_render
  | render
deriving DecidableEq, Repr

/-- The `if i % 4 == 0: scene.update_render(); viewer.render()` tail of
each loop iteration in the motion-planning notebooks. -/
def renderEvery4 (i : ℕ) : List Ev :=
  if i % 4 = 0 then [Ev.update_render, Ev.render] else []

/-- One iteration of the `follow_path` loop: compensate passive forces,
set the drive position and velocity targets of the first seven active
joints from row `i` of the plan, step the scene once, render every
fourth iteration. -/
def followIter (result : PlanResult) (i : ℕ) : List Ev :=
  [Ev.compute_passive_force, Ev.set_qf] ++
  (List.range 7).flatMap (fun j =>
    [Ev.set_drive_target j (result.position i j),
     Ev.set_drive_velocity_target j (result.velocity i j)]) ++
  [Ev.scene_step] ++ renderEvery4 i

/-- `follow_path(result, viewer)` of the motion-planning notebooks:
`n_step = result['position'].shape[0]` iterations of `followIter`. -/
def follow_path (result : PlanResult) : List Ev :=
  (List.range result.n_step).flatMap (followIter result)

/-- `for joint in active_joints[-2:]: joint.set_drive_target(v)` on the
list of drive targets of the active joints: every target in the
last-two slice is set to `v`, the rest are untouched. -/
def lastTwoTargets (targets : List ℚ) (v : ℚ) : List ℚ :=
  targets.take (targets.length - 2) ++
    (targets.drop (targets.length - 2)).map (fun _ => v)

/-- The unconditional 100-iteration loop shared by `open_gripper` and
`close_gripper`: no feedback check and no early termination. -/
def gripperLoopTrace : List Ev :=
  (List.range 100).flatMap (fun i =>
    [Ev.compute_passive_force, Ev.set_qf, Ev.scene_step] ++ renderEvery4 i)

/-- `open_gripper(viewer)`: drive targets of the last two active joints
set to `0.4`, then the 100-step loop. -/
def open_gripper (targets : List ℚ) : List ℚ × List Ev :=
  (lastTwoTargets targets 0.4, gripperLoopTrace)

/-- `close_gripper(viewer)`: drive targets of the last two active joints
set to `0`, then the 100-step loop. -/
def close_gripper (targets : List ℚ) : List ℚ × List Ev :=
  (lastTwoTargets targets 0, gripperLoopTrace)

/-- Trace events of the drive simulation loops of
robotics/1_getting_started_with_robot.ipynb.  `set_qf_passive` applies
the passive-force compensation alone; `set_qf_passive_plus_pid` applies
the sum `qf + pid_qf` computed when `use_external_pid` is enabled. -/
inductive DEv where
  | compute_passive_force
  | pid_forward_call
  | set_qf_passive
  | set_qf_passive_plus_pid
  | scene_step
  | update_render
  | take_picture
  | render
deriving DecidableEq, Repr

/-- One iteration of the `IN_COLAB` simulation loop: passive force,
optionally `pid_forward` added into `qf`, `set_qf`, one `scene.step()`,
and a screenshot every 200 steps. -/
def driveIterColab (use_external_pid : Bool) (steps : ℕ) : List DEv :=
  [DEv.compute_passive_force] ++
  (if use_external_pid then [DEv.pid_forward_call] else []) ++
  [if use_external_pid then DEv.set_qf_passive_plus_pid else DEv.set_qf_passive,
   DEv.scene_step] ++
  (if steps % 200 = 0 then [DEv.update_render, DEv.take_picture] else [])

/-- The whole `IN_COLAB` simulation loop: `for steps in range(2000)`. -/
def driveLoopColab (use_external_pid : Bool) : List DEv :=
  (List.range 2000).flatMap (driveIterColab use_external_pid)

/-- One iteration of the viewer simulation loop (`while not
viewer.closed`): same body as the Colab loop, with a viewer render every
8 steps and a screenshot on the first 2000 steps every 200 steps. -/
def driveIterViewer (use_external_pid : Bool) (steps : ℕ) : List DEv :=
  [DEv.compute_passive_force] ++
  (if use_external_pid then [DEv.pid_forward_call] else []) ++
  [if use_external_pid then DEv.set_qf_passive_plus_pid else DEv.set_qf_passive,
   DEv.scene_step] ++
  (if steps % 8 = 0 then [DEv.update_render, DEv.render] else []) ++
  (if steps < 2000 ∧ steps % 200 = 0 then [DEv.update_render, DEv.take_picture]
   else [])

/-- A contact point as read by the contact-checking cell of
basics/5_contact.ipynb: only `point.impulse` is used, a 3-vector. -/
structure ContactPoint where
  impulse : Fin 3 → ℚ

/-- A contact as read by the contact-checking cell: the name of
`contact.actor0` and the list `contact.points`. -/
structure Contact where
  actor0_name : String
  points : List ContactPoint

/-- The per-point branch of the contact-checking cell: add
`point.impulse[2] / dt` to `support_force` when `actor0` is `'box2'`,
subtract it when `actor0` is `'box1'`, otherwise raise `RuntimeError`. -/
def supportForcePoint (dt : ℚ) (name : String) (point : ContactPoint)
    (support_force : ℚ) : Except String ℚ :=
  if name = "box2" then .ok (support_force + point.impulse 2 / dt)
  else if name = "box1" then .ok (support_force - point.impulse 2 / dt)
  else .error "Impossible case in this example."

/-- The inner `for point in contact.points` loop; a raised
`RuntimeError` aborts the remaining points. -/
def supportForcePoints (dt : ℚ) (name : String) :
    ℚ → List ContactPoint → Except String ℚ
  | acc, [] => .ok acc
  | acc, point :: ps =>
    match supportForcePoint dt name point acc with
    | .error e => .error e
    | .ok acc2 => supportForcePoints dt name acc2 ps

/-- The outer `for contact in contacts` loop; a raised `RuntimeError`
aborts the remaining contacts. -/
def supportForceContacts (dt : ℚ) :
    ℚ → List Contact → Except String ℚ
  | acc, [] => .ok acc
  | acc, contact :: cs =>
    match supportForcePoints dt contact.actor0_name acc contact.points with
    | .error e => .error e
    | .ok acc2 => supportForceContacts dt acc2 cs

/-- The whole contact-checking accumulation, starting from
`support_force = 0`. -/
def support_force (dt : ℚ) (contacts : List Contact) : Except String ℚ :=
  supportForceContacts dt 0 contacts

/-- `pose[k] += d` on a Python pose list (all indices used by the demo
are within bounds of the 7-element landmark poses). -/
def listAddAt (pose : List ℚ) (k : ℕ) (d : ℚ) : List ℚ :=
  pose.set k (pose.getD k 0 + d)

/-- The six poses passed to `move_to_pose` in one iteration of the
`demo(with_screw, viewer)` loop of the plan-a-path notebook.  The list
is mutated in place, so each offset applies to the already-shifted
pose: `pose[2] += 0.2`, `pose[2] -= 0.12`, `pose[2] += 0.12`,
`pose[0] += 0.1`, `pose[2] -= 0.12`, `pose[2] += 0.12`, with a
`move_to_pose` call after each offset. -/
def demoIterPoses (pose : List ℚ) : List (List ℚ) :=
  let p1 := listAddAt pose 2 0.2
  let p2 := listAddAt p1 2 (-0.12)
  let p3 := listAddAt p2 2 0.12
  let p4 := listAddAt p3 0 0.1
  let p5 := listAddAt p4 2 (-0.12)
  let p6 := listAddAt p5 2 0.12
  [p1, p2, p3, p4, p5, p6]

/-- The state of the landmark pose after one `demo` loop iteration,
which is also the pose passed to the final `move_to_pose` call. -/
def demoFinalPose (pose : List ℚ) : List ℚ :=
  listAddAt (listAddAt (listAddAt (listAddAt (listAddAt (listAddAt
    pose 2 0.2) 2 (-0.12)) 2 0.12) 0 0.1) 2 (-0.12)) 2 0.12

theorem SimplePID.run_state (s : SimplePID) (hist : List (ℚ × ℚ))
    (s2 : SimplePID) (h : s.run hist = some s2) :
    s2.p = s.p ∧ s2.i = s.i ∧ s2.d = s.d ∧
    s2._ci = s._ci + integralOf hist ∧
    s2._last_error = lastErrorOf s._last_error hist := by
  induction hist generalizing s with
  | nil =>
    simp only [SimplePID.run] at h
    cases h
    simp [integralOf, lastErrorOf]
  | cons c rest ih =>
    obtain ⟨e, dt⟩ := c
    simp only [SimplePID.run] at h
    by_cases hdt : dt = 0
    · simp [SimplePID.compute, hdt] at h
    · simp only [SimplePID.compute, if_neg hdt] at h
      obtain ⟨hp, hi, hd, hci, hle⟩ := ih _ h
      refine ⟨hp, hi, hd, ?_, ?_⟩
      · simp only [hci, integralOf, List.map_cons, List.sum_cons]
        ring
      · rcases rest with _ | ⟨c2, rest2⟩
        · simpa [lastErrorOf] using hle
        · simpa [lastErrorOf] using hle

/-- Claim C1: the claim says `compute` is stateless, leaves every field
unchanged, and returns the same force on two successive identical calls.
On the code this is false: with gains `(0, 1, 0)`, calling
`compute(1, 1)` returns force `1` and changes `_ci` from `0` to `1`
(and `_cp`, `_last_error` from `0` to `1`), and a second identical call
returns force `2`. -/
theorem simplePID_stateless_counterexample :
    ((SimplePID.init 0 1 0).compute 1 1).map Prod.fst = some 1 ∧
    ((SimplePID.init 0 1 0).compute 1 1).map (fun r => r.2._ci) = some 1 ∧
    (SimplePID.init 0 1 0)._ci = 0 ∧
    (((SimplePID.init 0 1 0).compute 1 1).bind
        (fun r => r.2.compute 1 1)).map Prod.fst = some 2 := by
  norm_num [SimplePID.init, SimplePID.compute]

/-- Claim C1 (amended): `compute(current_error, dt)` with `dt ≠ 0` is
deterministic in the controller state and its arguments, but it is
stateful: it overwrites `_cp` with the error, adds `error·dt` to `_ci`,
overwrites `_cd` with the difference quotient and `_last_error` with the
error, and the returned force depends on the accumulated `_ci` and
`_last_error` as well as on the gains and the arguments. -/
theorem simplePID_compute_state_update (s : SimplePID) (e dt : ℚ)
    (hdt : dt ≠ 0) :
    s.compute e dt = some
      (s.p * e + s.i * (s._ci + e * dt) + s.d * ((e - s._last_error) / dt),
       { s with
         _cp := e
         _ci := s._ci + e * dt
         _cd := (e - s._last_error) / dt
         _last_error := e }) := by
  simp [SimplePID.compute, hdt]

theorem simplePID_compute_state_update_witness :
    (3 : ℚ) ≠ 0 ∧
    (SimplePID.init 1 1 1).compute 2 3 = some
      ((1 : ℚ) * 2 + 1 * (0 + 2 * 3) + 1 * ((2 - 0) / 3),
       { SimplePID.init 1 1 1 with
         _cp := 2, _ci := 0 + 2 * 3, _cd := (2 - 0) / 3, _last_error := 2 }) :=
  ⟨by norm_num, simplePID_compute_state_update (SimplePID.init 1 1 1) 2 3 (by norm_num)⟩

/-- Claim C2: for a controller constructed with gains `(kp, ki, kd)` on
which a history of calls (each with nonzero `dt`) has been made, a
further call `compute(e, dt)` with `dt ≠ 0` returns
`kp·e + ki·I + kd·(e − e_prev)/dt`, where `I` is the running sum of
`error·dt` over all calls so far including this one and `e_prev` is the
error of the previous call (`0` on the first call). -/
theorem simplePID_compute_formula (kp ki kd : ℚ) (hist : List (ℚ × ℚ))
    (s : SimplePID) (e dt : ℚ)
    (hrun : (SimplePID.init kp ki kd).run hist = some s) (hdt : dt ≠ 0) :
    (s.compute e dt).map Prod.fst = some
      (kp * e + ki * (integralOf hist + e * dt) +
        kd * ((e - lastErrorOf 0 hist) / dt)) := by
  obtain ⟨hp, hi, hd, hci, hle⟩ := SimplePID.run_state _ _ _ hrun
  rw [simplePID_compute_state_update s e dt hdt, Option.map_some']
  congr 1
  rw [hp, hi, hd, hci, hle]
  simp [SimplePID.init]

theorem simplePID_compute_formula_witness :
    (SimplePID.init 1 1 1).run [(1, 1)] = some
      { p := 1, i := 1, d := 1, _cp := 1, _ci := 1, _cd := 1, _last_error := 1 } ∧
    (1 : ℚ) ≠ 0 ∧
    (({ p := 1, i := 1, d := 1, _cp := 1, _ci := 1, _cd := 1,
        _last_error := 1 : SimplePID }).compute 2 1).map Prod.fst = some
      ((1 : ℚ) * 2 + 1 * (integralOf [(1, 1)] + 2 * 1) +
        1 * ((2 - lastErrorOf 0 [(1, 1)]) / 1)) :=
  ⟨by norm_num [SimplePID.run, SimplePID.compute, SimplePID.init], by norm_num,
    simplePID_compute_formula 1 1 1 [(1, 1)] _ 2 1
      (by norm_num [SimplePID.run, SimplePID.compute, SimplePID.init]) (by norm_num)⟩

/-- Claim C6: `compute` has no guard on `dt`: `compute(e, 0)` raises a
division-by-zero error (returns no force) for every controller state,
while for every `dt ≠ 0` the call returns a value. -/
theorem simplePID_compute_div_by_zero (s : SimplePID) (e dt : ℚ)
    (hdt : dt ≠ 0) :
    s.compute e 0 = none ∧ (s.compute e dt).isSome := by
  constructor
  · simp [SimplePID.compute]
  · simp [SimplePID.compute, hdt]

theorem simplePID_compute_div_by_zero_witness :
    (7 : ℚ) ≠ 0 ∧
    ((SimplePID.init 1 2 3).compute 5 0 = none ∧
      ((SimplePID.init 1 2 3).compute 5 7).isSome) :=
  ⟨by norm_num, simplePID_compute_div_by_zero (SimplePID.init 1 2 3) 5 7 (by norm_num)⟩

/-- Claim C3: the claim says that after any planner call returning a
status other than `"Success"` the code makes no further planning attempt
for that pose.  On the code this is false: in `move_to_pose_with_screw`,
when `plan_screw` returns `"RRT Failed"` (not `"Success"`), the code
makes a second planning attempt with `planner.plan`, so the trace holds
two planning calls. -/
theorem move_to_pose_retry_counterexample :
    plannerBothFail.plan_screw.status ≠ "Success" ∧
    planningCalls (move_to_pose_with_screw plannerBothFail).2 = 2 := by
  constructor
  · intro h
    simp [plannerBothFail] at h
  · rfl

/-- Claim C3 (amended): in `move_to_pose_with_screw`, a failed
`plan_screw` is followed by exactly one further planning attempt, the
fallback `planner.plan`; when that fallback also returns a status other
than `"Success"`, no further planning attempt is made and the code does
nothing beyond printing the fallback's status and returning `-1`. -/
theorem move_to_pose_with_screw_no_retry_after_fallback (planner : MPlanner)
    (hscrew : planner.plan_screw.status ≠ "Success")
    (hplan : planner.plan.status ≠ "Success") :
    move_to_pose_with_screw planner =
      (-1, [PEv.plan_screw_call, PEv.plan_call,
            PEv.print_status planner.plan.status]) ∧
    planningCalls (move_to_pose_with_screw planner).2 = 2 := by
  constructor
  · simp [move_to_pose_with_screw, hscrew, hplan]
  · simp [move_to_pose_with_screw, hscrew, hplan, planningCalls]

theorem move_to_pose_with_screw_no_retry_after_fallback_witness :
    plannerBothFail.plan_screw.status ≠ "Success" ∧
    plannerBothFail.plan.status ≠ "Success" ∧
    (move_to_pose_with_screw plannerBothFail =
      (-1, [PEv.plan_screw_call, PEv.plan_call,
            PEv.print_status plannerBothFail.plan.status]) ∧
     planningCalls (move_to_pose_with_screw plannerBothFail).2 = 2) :=
  ⟨by simp [plannerBothFail], by simp [plannerBothFail],
    move_to_pose_with_screw_no_retry_after_fallback plannerBothFail
      (by simp [plannerBothFail]) (by simp [plannerBothFail])⟩

/-- Claim C4: `move_to_pose_with_RRTConnect` returns `0` and calls
`follow_path` exactly when `planner.plan` returns status `"Success"`;
on any other status it prints that status, does not call `follow_path`,
and returns `-1`, with no other effect (its whole trace is the planning
call followed by the print). -/
theorem move_to_pose_with_RRTConnect_spec (planner : MPlanner) :
    move_to_pose_with_RRTConnect planner =
      (if planner.plan.status = "Success" then
        (0, [PEv.plan_call, PEv.follow_path_call])
      else
        (-1, [PEv.plan_call, PEv.print_status planner.plan.status])) ∧
    ((move_to_pose_with_RRTConnect planner).1 = 0 ↔
      planner.plan.status = "Success") ∧
    (PEv.follow_path_call ∈ (move_to_pose_with_RRTConnect planner).2 ↔
      planner.plan.status = "Success") := by
  by_cases h : planner.plan.status = "Success"
  · refine ⟨?_, ?_, ?_⟩ <;> simp [move_to_pose_with_RRTConnect, h]
  · refine ⟨?_, ?_, ?_⟩ <;> simp [move_to_pose_with_RRTConnect, h]

theorem move_to_pose_with_RRTConnect_spec_witness :
    (move_to_pose_with_RRTConnect plannerBothFail =
      (if plannerBothFail.plan.status = "Success" then
        (0, [PEv.plan_call, PEv.follow_path_call])
      else
        (-1, [PEv.plan_call, PEv.print_status plannerBothFail.plan.status])) ∧
    ((move_to_pose_with_RRTConnect plannerBothFail).1 = 0 ↔
      plannerBothFail.plan.status = "Success") ∧
    (PEv.follow_path_call ∈ (move_to_pose_with_RRTConnect plannerBothFail).2 ↔
      plannerBothFail.plan.status = "Success")) :=
  move_to_pose_with_RRTConnect_spec plannerBothFail

theorem count_flatMap_range_const {α : Type} [BEq α] (f : ℕ → List α) (a : α)
    (k : ℕ) (hf : ∀ i, (f i).count a = k) (n : ℕ) :
    ((List.range n).flatMap f).count a = n * k := by
  induction n with
  | zero => simp
  | succ n ih =>
    rw [List.range_succ, List.flatMap_append, List.count_append, ih]
    simp [List.flatMap_cons, hf, Nat.succ_mul]

theorem map_const_two {α β : Type} (l : List α) (v : β) (h : l.length = 2) :
    l.map (fun _ => v) = [v, v] := by
  rcases l with _ | ⟨a, _ | ⟨b, _ | ⟨c, t⟩⟩⟩ <;> simp_all

/-- Claim C5: with `use_external_pid` enabled, every iteration of the
drive loop (both the Colab branch and the viewer branch) computes the
passive-force compensation, adds the `pid_forward` output to it, applies
the sum with `robot.set_qf`, and then calls `scene.step()` exactly once,
in that order; the Colab loop takes 2000 steps in total. -/
theorem drive_loop_pid_once_per_tick :
    (∀ steps,
      driveIterColab true steps =
        [DEv.compute_passive_force, DEv.pid_forward_call,
         DEv.set_qf_passive_plus_pid, DEv.scene_step] ++
        (if steps % 200 = 0 then [DEv.update_render, DEv.take_picture]
         else [])) ∧
    (∀ steps,
      driveIterViewer true steps =
        [DEv.compute_passive_force, DEv.pid_forward_call,
         DEv.set_qf_passive_plus_pid, DEv.scene_step] ++
        (if steps % 8 = 0 then [DEv.update_render, DEv.render] else []) ++
        (if steps < 2000 ∧ steps % 200 = 0
         then [DEv.update_render, DEv.take_picture] else [])) ∧
    (∀ steps, (driveIterColab true steps).count DEv.scene_step = 1) ∧
    (∀ steps, (driveIterViewer true steps).count DEv.scene_step = 1) ∧
    (driveLoopColab true).count DEv.scene_step = 2000 := by
  have hcolab : ∀ steps, (driveIterColab true steps).count DEv.scene_step = 1 := by
    intro steps
    by_cases h : steps % 200 = 0 <;>
      simp [driveIterColab, h, List.count_append, List.count_cons]
  refine ⟨fun _ => rfl, fun _ => rfl, hcolab, ?_, ?_⟩
  · intro steps
    by_cases h1 : steps % 8 = 0 <;>
      by_cases h2 : steps < 2000 ∧ steps % 200 = 0 <;>
        simp [driveIterViewer, h1, h2, List.count_append, List.count_cons]
  · have := count_flatMap_range_const (driveIterColab true) DEv.scene_step 1
      hcolab 2000
    simpa [driveLoopColab] using this

/-- Claim C7: `follow_path` takes exactly `n_step` simulation steps and
each iteration `i` first sets the drive position and velocity targets of
exactly the first seven active joints from row `i` of the plan, then
calls `scene.step()` exactly once, and renders (update followed by
viewer render) only after the step and only when `i % 4 = 0`. -/
theorem follow_path_loop_spec (result : PlanResult) :
    (follow_path result).count Ev.scene_step = result.n_step ∧
    ∀ i,
      followIter result i =
        [Ev.compute_passive_force, Ev.set_qf,
         Ev.set_drive_target 0 (result.position i 0),
         Ev.set_drive_velocity_target 0 (result.velocity i 0),
         Ev.set_drive_target 1 (result.position i 1),
         Ev.set_drive_velocity_target 1 (result.velocity i 1),
         Ev.set_drive_target 2 (result.position i 2),
         Ev.set_drive_velocity_target 2 (result.velocity i 2),
         Ev.set_drive_target 3 (result.position i 3),
         Ev.set_drive_velocity_target 3 (result.velocity i 3),
         Ev.set_drive_target 4 (result.position i 4),
         Ev.set_drive_velocity_target 4 (result.velocity i 4),
         Ev.set_drive_target 5 (result.position i 5),
         Ev.set_drive_velocity_target 5 (result.velocity i 5),
         Ev.set_drive_target 6 (result.position i 6),
         Ev.set_drive_velocity_target 6 (result.velocity i 6),
         Ev.scene_step] ++
        (if i % 4 = 0 then [Ev.update_render, Ev.render] else []) ∧
      (followIter result i).count Ev.scene_step = 1 := by
  have hiter : ∀ i, (followIter result i).count Ev.scene_step = 1 := by
    intro i
    have hzero : List.count Ev.scene_step
        ((List.range 7).flatMap fun j =>
          [Ev.set_drive_target j (result.position i j),
           Ev.set_drive_velocity_target j (result.velocity i j)]) = 0 := by
      rw [List.count_eq_zero]
      simp
    by_cases h : i % 4 = 0 <;>
      simp [followIter, renderEvery4, h, List.count_append, List.count_cons,
        hzero]
  refine ⟨?_, fun i => ⟨rfl, hiter i⟩⟩
  have := count_flatMap_range_const (followIter result) Ev.scene_step 1 hiter
    result.n_step
  simpa [follow_path] using this

set_option maxRecDepth 8000 in
/-- Claim C9: `open_gripper` and `close_gripper` set the drive targets
of exactly the last two active joints (to `0.4` and `0` respectively,
leaving the other joints' targets unchanged) and then run an
unconditional loop of exactly 100 `scene.step()` calls, rendering only
on every fourth iteration (25 renders), with a trace that does not
depend on the drive state at all — no feedback check and no early
termination. -/
theorem gripper_spec (targets : List ℚ) (h : 2 ≤ targets.length) :
    (open_gripper targets).1 =
      targets.take (targets.length - 2) ++ [0.4, 0.4] ∧
    (close_gripper targets).1 =
      targets.take (targets.length - 2) ++ [0, 0] ∧
    (open_gripper targets).1.length = targets.length ∧
    (open_gripper targets).2 = gripperLoopTrace ∧
    (close_gripper targets).2 = gripperLoopTrace ∧
    gripperLoopTrace.count Ev.scene_step = 100 ∧
    gripperLoopTrace.count Ev.render = 25 := by
  have hlen : (targets.drop (targets.length - 2)).length = 2 := by
    simp only [List.length_drop]
    omega
  refine ⟨?_, ?_, ?_, rfl, rfl, ?_, ?_⟩
  · show lastTwoTargets targets 0.4 = _
    rw [lastTwoTargets, map_const_two _ _ hlen]
  · show lastTwoTargets targets 0 = _
    rw [lastTwoTargets, map_const_two _ _ hlen]
  · show (lastTwoTargets targets 0.4).length = _
    simp only [lastTwoTargets, List.length_append, List.length_take,
      List.length_map, hlen]
    omega
  · decide
  · decide

theorem gripper_spec_witness :
    2 ≤ ([0, 0, 0, 0, 0, 0, 0, 0, 0] : List ℚ).length ∧
    ((open_gripper [0, 0, 0, 0, 0, 0, 0, 0, 0]).1 =
      ([0, 0, 0, 0, 0, 0, 0, 0, 0] : List ℚ).take
        (([0, 0, 0, 0, 0, 0, 0, 0, 0] : List ℚ).length - 2) ++ [0.4, 0.4] ∧
    (close_gripper [0, 0, 0, 0, 0, 0, 0, 0, 0]).1 =
      ([0, 0, 0, 0, 0, 0, 0, 0, 0] : List ℚ).take
        (([0, 0, 0, 0, 0, 0, 0, 0, 0] : List ℚ).length - 2) ++ [0, 0] ∧
    (open_gripper [0, 0, 0, 0, 0, 0, 0, 0, 0]).1.length =
      ([0, 0, 0, 0, 0, 0, 0, 0, 0] : List ℚ).length ∧
    (open_gripper [0, 0, 0, 0, 0, 0, 0, 0, 0]).2 = gripperLoopTrace ∧
    (close_gripper [0, 0, 0, 0, 0, 0, 0, 0, 0]).2 = gripperLoopTrace ∧
    gripperLoopTrace.count Ev.scene_step = 100 ∧
    gripperLoopTrace.count Ev.render = 25) :=
  ⟨by norm_num, gripper_spec [0, 0, 0, 0, 0, 0, 0, 0, 0] (by norm_num)⟩

/-- Claim C8: in the contact-checking loop, each contact point adds
`impulse[2] / dt` to `support_force` when the contact's `actor0` is
named `'box2'`, subtracts it when the name is `'box1'`, and any other
name raises `RuntimeError`, which aborts the accumulation (the remaining
points and contacts are never processed). -/
theorem contact_support_force_spec (dt acc : ℚ) (point : ContactPoint)
    (ps : List ContactPoint) (cs : List Contact) (name : String)
    (h1 : name ≠ "box2") (h2 : name ≠ "box1") :
    supportForcePoint dt "box2" point acc =
      .ok (acc + point.impulse 2 / dt) ∧
    supportForcePoint dt "box1" point acc =
      .ok (acc - point.impulse 2 / dt) ∧
    supportForcePoint dt name point acc =
      .error "Impossible case in this example." ∧
    supportForcePoints dt name acc (point :: ps) =
      .error "Impossible case in this example." ∧
    supportForceContacts dt acc
        ({ actor0_name := name, points := point :: ps } :: cs) =
      .error "Impossible case in this example." := by
  have hpt : supportForcePoint dt name point acc =
      .error "Impossible case in this example." := by
    simp [supportForcePoint, h1, h2]
  have hpts : supportForcePoints dt name acc (point :: ps) =
      .error "Impossible case in this example." := by
    simp [supportForcePoints, hpt]
  refine ⟨?_, ?_, hpt, hpts, ?_⟩
  · simp [supportForcePoint]
  · simp only [supportForcePoint]
    rw [if_neg (by decide)]
    simp
  · simp [supportForceContacts, hpts]

theorem contact_support_force_spec_witness :
    ("table" : String) ≠ "box2" ∧ ("table" : String) ≠ "box1" ∧
    (supportForcePoint (1/100) "box2" { impulse := fun _ => 1 } 0 =
      .ok (0 + ({ impulse := fun _ => (1 : ℚ) } : ContactPoint).impulse 2 / (1/100)) ∧
    supportForcePoint (1/100) "box1" { impulse := fun _ => 1 } 0 =
      .ok (0 - ({ impulse := fun _ => (1 : ℚ) } : ContactPoint).impulse 2 / (1/100)) ∧
    supportForcePoint (1/100) "table" { impulse := fun _ => 1 } 0 =
      .error "Impossible case in this example." ∧
    supportForcePoints (1/100) "table" 0 [{ impulse := fun _ => 1 }] =
      .error "Impossible case in this example." ∧
    supportForceContacts (1/100) 0
        [{ actor0_name := "table", points := [{ impulse := fun _ => 1 }] }] =
      .error "Impossible case in this example.") :=
  ⟨by decide, by decide,
    by
      have h := contact_support_force_spec (1/100) 0 { impulse := fun _ => 1 }
        [] [] "table" (by decide) (by decide)
      simpa using h⟩

theorem listAddAt_length (pose : List ℚ) (k : ℕ) (d : ℚ) :
    (listAddAt pose k d).length = pose.length := by
  simp [listAddAt]

theorem listAddAt_getD_lt (pose : List ℚ) (k : ℕ) (d : ℚ)
    (hk : k < pose.length) :
    (listAddAt pose k d).getD k 0 = pose.getD k 0 + d := by
  simp [listAddAt, List.getD, List.getElem?_set_self hk]

theorem listAddAt_getD_ne (pose : List ℚ) (k : ℕ) (d : ℚ) (j : ℕ)
    (hj : j ≠ k) :
    (listAddAt pose k d).getD j 0 = pose.getD j 0 := by
  simp [listAddAt, List.getD, List.getElem?_set_ne (Ne.symm hj)]

/-- Claim C10: in one iteration of the `demo` loop the landmark pose
list is shifted in place: relative to the original z-coordinate, the z
offsets of the six poses passed to `move_to_pose` are `+0.2`, `+0.08`,
`+0.2` before the x shift and `+0.08`, `+0.2` after it (the applied
deltas being `+0.2, -0.12, +0.12, -0.12, +0.12`), the x-coordinate
gains `+0.1` at the fourth call, and the pose passed to the final
`move_to_pose` call — also the net state after the iteration — is the
original pose with `x + 0.1` and `z + 0.2`, all other entries
unchanged. -/
theorem demo_pose_arithmetic (pose : List ℚ) (j : ℕ) (h : 3 ≤ pose.length)
    (hj0 : j ≠ 0) (hj2 : j ≠ 2) :
    (demoIterPoses pose).map (fun p => p.getD 2 0) =
      [pose.getD 2 0 + 0.2, pose.getD 2 0 + 0.08, pose.getD 2 0 + 0.2,
       pose.getD 2 0 + 0.2, pose.getD 2 0 + 0.08, pose.getD 2 0 + 0.2] ∧
    (demoIterPoses pose).map (fun p => p.getD 0 0) =
      [pose.getD 0 0, pose.getD 0 0, pose.getD 0 0,
       pose.getD 0 0 + 0.1, pose.getD 0 0 + 0.1, pose.getD 0 0 + 0.1] ∧
    (demoIterPoses pose).getLast? = some (demoFinalPose pose) ∧
    (demoFinalPose pose).getD 0 0 = pose.getD 0 0 + 0.1 ∧
    (demoFinalPose pose).getD 2 0 = pose.getD 2 0 + 0.2 ∧
    (demoFinalPose pose).length = pose.length ∧
    (demoFinalPose pose).getD j 0 = pose.getD j 0 := by
  have h0 : 0 < pose.length := by omega
  have h2 : 2 < pose.length := by omega
  simp only [demoIterPoses, demoFinalPose, List.map_cons, List.map_nil]
  set p1 := listAddAt pose 2 0.2 with hp1
  set p2 := listAddAt p1 2 (-0.12) with hp2
  set p3 := listAddAt p2 2 0.12 with hp3
  set p4 := listAddAt p3 0 0.1 with hp4
  set p5 := listAddAt p4 2 (-0.12) with hp5
  set p6 := listAddAt p5 2 0.12 with hp6
  have len1 : p1.length = pose.length := listAddAt_length pose 2 0.2
  have len2 : p2.length = pose.length := by rw [hp2, listAddAt_length, len1]
  have len3 : p3.length = pose.length := by rw [hp3, listAddAt_length, len2]
  have len4 : p4.length = pose.length := by rw [hp4, listAddAt_length, len3]
  have len5 : p5.length = pose.length := by rw [hp5, listAddAt_length, len4]
  have len6 : p6.length = pose.length := by rw [hp6, listAddAt_length, len5]
  have z1 : p1.getD 2 0 = pose.getD 2 0 + 0.2 := listAddAt_getD_lt pose 2 0.2 h2
  have z2 : p2.getD 2 0 = p1.getD 2 0 + -0.12 := by
    rw [hp2]
    exact listAddAt_getD_lt p1 2 (-0.12) (by rw [len1]; exact h2)
  have z3 : p3.getD 2 0 = p2.getD 2 0 + 0.12 := by
    rw [hp3]
    exact listAddAt_getD_lt p2 2 0.12 (by rw [len2]; exact h2)
  have z4 : p4.getD 2 0 = p3.getD 2 0 := by
    rw [hp4]
    exact listAddAt_getD_ne p3 0 0.1 2 (by norm_num)
  have z5 : p5.getD 2 0 = p4.getD 2 0 + -0.12 := by
    rw [hp5]
    exact listAddAt_getD_lt p4 2 (-0.12) (by rw [len4]; exact h2)
  have z6 : p6.getD 2 0 = p5.getD 2 0 + 0.12 := by
    rw [hp6]
    exact listAddAt_getD_lt p5 2 0.12 (by rw [len5]; exact h2)
  have x1 : p1.getD 0 0 = pose.getD 0 0 :=
    listAddAt_getD_ne pose 2 0.2 0 (by norm_num)
  have x2 : p2.getD 0 0 = p1.getD 0 0 := by
    rw [hp2]
    exact listAddAt_getD_ne p1 2 (-0.12) 0 (by norm_num)
  have x3 : p3.getD 0 0 = p2.getD 0 0 := by
    rw [hp3]
    exact listAddAt_getD_ne p2 2 0.12 0 (by norm_num)
  have x4 : p4.getD 0 0 = p3.getD 0 0 + 0.1 := by
    rw [hp4]
    exact listAddAt_getD_lt p3 0 0.1 (by rw [len3]; exact h0)
  have x5 : p5.getD 0 0 = p4.getD 0 0 := by
    rw [hp5]
    exact listAddAt_getD_ne p4 2 (-0.12) 0 (by norm_num)
  have x6 : p6.getD 0 0 = p5.getD 0 0 := by
    rw [hp6]
    exact listAddAt_getD_ne p5 2 0.12 0 (by norm_num)
  refine ⟨?_, ?_, rfl, ?_, ?_, len6, ?_⟩
  · rw [z6, z5, z4, z3, z2, z1]
    norm_num
    all_goals ring
  · rw [x6, x5, x4, x3, x2, x1]
  · rw [x6, x5, x4, x3, x2, x1]
  · rw [z6, z5, z4, z3, z2, z1]
    ring
  · have w6 : p6.getD j 0 = p5.getD j 0 := by
      rw [hp6]
      exact listAddAt_getD_ne p5 2 0.12 j hj2
    have w5 : p5.getD j 0 = p4.getD j 0 := by
      rw [hp5]
      exact listAddAt_getD_ne p4 2 (-0.12) j hj2
    have w4 : p4.getD j 0 = p3.getD j 0 := by
      rw [hp4]
      exact listAddAt_getD_ne p3 0 0.1 j hj0
    have w3 : p3.getD j 0 = p2.getD j 0 := by
      rw [hp3]
      exact listAddAt_getD_ne p2 2 0.12 j hj2
    have w2 : p2.getD j 0 = p1.getD j 0 := by
      rw [hp2]
      exact listAddAt_getD_ne p1 2 (-0.12) j hj2
    have w1 : p1.getD j 0 = pose.getD j 0 :=
      listAddAt_getD_ne pose 2 0.2 j hj2
    rw [w6, w5, w4, w3, w2, w1]

theorem demo_pose_arithmetic_witness :
    (3 ≤ ([0.4, 0.3, 0.12, 0, 1, 0, 0] : List ℚ).length ∧
      (1 : ℕ) ≠ 0 ∧ (1 : ℕ) ≠ 2) ∧
    ((demoIterPoses [0.4, 0.3, 0.12, 0, 1, 0, 0]).map (fun p => p.getD 2 0) =
      [([0.4, 0.3, 0.12, 0, 1, 0, 0] : List ℚ).getD 2 0 + 0.2,
       ([0.4, 0.3, 0.12, 0, 1, 0, 0] : List ℚ).getD 2 0 + 0.08,
       ([0.4, 0.3, 0.12, 0, 1, 0, 0] : List ℚ).getD 2 0 + 0.2,
       ([0.4, 0.3, 0.12, 0, 1, 0, 0] : List ℚ).getD 2 0 + 0.2,
       ([0.4, 0.3, 0.12, 0, 1, 0, 0] : List ℚ).getD 2 0 + 0.08,
       ([0.4, 0.3, 0.12, 0, 1, 0, 0] : List ℚ).getD 2 0 + 0.2] ∧
    (demoIterPoses [0.4, 0.3, 0.12, 0, 1, 0, 0]).map (fun p => p.getD 0 0) =
      [([0.4, 0.3, 0.12, 0, 1, 0, 0] : List ℚ).getD 0 0,
       ([0.4, 0.3, 0.12, 0, 1, 0, 0] : List ℚ).getD 0 0,
       ([0.4, 0.3, 0.12, 0, 1, 0, 0] : List ℚ).getD 0 0,
       ([0.4, 0.3, 0.12, 0, 1, 0, 0] : List ℚ).getD 0 0 + 0.1,
       ([0.4, 0.3, 0.12, 0, 1, 0, 0] : List ℚ).getD 0 0 + 0.1,
       ([0.4, 0.3, 0.12, 0, 1, 0, 0] : List ℚ).getD 0 0 + 0.1] ∧
    (demoIterPoses [0.4, 0.3, 0.12, 0, 1, 0, 0]).getLast? =
      some (demoFinalPose [0.4, 0.3, 0.12, 0, 1, 0, 0]) ∧
    (demoFinalPose [0.4, 0.3, 0.12, 0, 1, 0, 0]).getD 0 0 =
      ([0.4, 0.3, 0.12, 0, 1, 0, 0] : List ℚ).getD 0 0 + 0.1 ∧
    (demoFinalPose [0.4, 0.3, 0.12, 0, 1, 0, 0]).getD 2 0 =
      ([0.4, 0.3, 0.12, 0, 1, 0, 0] : List ℚ).getD 2 0 + 0.2 ∧
    (demoFinalPose [0.4, 0.3, 0.12, 0, 1, 0, 0]).length =
      ([0.4, 0.3, 0.12, 0, 1, 0, 0] : List ℚ).length ∧
    (demoFinalPose [0.4, 0.3, 0.12, 0, 1, 0, 0]).getD 1 0 =
      ([0.4, 0.3, 0.12, 0, 1, 0, 0] : List ℚ).getD 1 0) :=
  ⟨by norm_num,
    demo_pose_arithmetic [0.4, 0.3, 0.12, 0, 1, 0, 0] 1 (by norm_num)
      (by norm_num) (by norm_num)⟩
